import Mathlib

/-!
Shallow embedding of the barter-integration stream-transformation pipeline.

Source files embedded here:
- `src/socket/error.rs` / error constructors used across the crate: `SocketError`
- `src/socket/protocol/websocket.rs`: `WebSocketParser::parse`, `process_text`,
  `process_binary`, `process_ping`, `process_pong`, `process_close_frame`
- `src/socket/mod.rs`: `ExchangeSocket` and its `Stream::poll_next` state machine
- `src/public/model.rs`: `Subscription`, `StreamMeta`, `Sequence`, `MarketEvent`,
  `MarketData`, `Trade`
- `src/public/binance/mod.rs`: `BinanceMessage`, `BinanceTrade::to_stream_id`
- `src/public/binance/futures.rs`: `BinanceFutures::{transform, get_stream_meta,
  get_stream_id, generate_subscriptions}`
- `src/public/explore.rs`: `StreamBuilder::{new, add, build}` and the `consume`
  forwarding task

Conventions: Rust `u64`/`u32` become `Nat` with arithmetic reduced modulo `2 ^ 64`
(resp. `2 ^ 32`) where an overflow could occur; `DateTime<Utc>` becomes a `Nat`
(epoch milliseconds) threaded explicitly where the source calls `Utc::now()`;
`rust_decimal::Decimal` becomes `Rat`; `serde_json` deserialisation is an
explicit function parameter (it is an external library); `HashMap` becomes an
association list with first-match lookup and replace-on-insert semantics;
`Result<T, E>` becomes `Except E T`; async polling becomes an explicit
`Poll`-valued step function over a transport modelled as the list of results
its successive polls produce.
-/

namespace Barter

/-- `Symbol` newtype over `String` (src/lib.rs). -/
abbrev Symbol := String

/-- `InstrumentKind` enum from src/lib.rs. -/
inductive InstrumentKind where
  | Spot
  | FuturePerpetual
  | FutureQuarterly
deriving DecidableEq, Repr

/-- `Instrument { base, quote, kind }` from src/lib.rs. -/
structure Instrument where
  base : Symbol
  quote : Symbol
  kind : InstrumentKind
deriving DecidableEq, Repr

/-- Underlying `serde_json::Error`, modelled by its message text. -/
abbrev SerdeJsonError := String

/-- Underlying `tokio_tungstenite::tungstenite::Error`, modelled by its message text. -/
abbrev WsError := String

/-- `SocketError` (src/socket/error.rs), with the constructors as they are used at
the call sites embedded here: `SubscribeError` (futures.rs / explore.rs), `SinkError`
(socket/mod.rs), `Unidentifiable`, `Serde { error, payload }` (websocket.rs),
`Terminated`, `WebSocket`. -/
inductive SocketError where
  | SubscribeError (msg : String)
  | SinkError
  | Unidentifiable (id : String)
  | Serde (error : SerdeJsonError) (payload : String)
  | Terminated (closeFrame : String)
  | WebSocket (err : WsError)
deriving DecidableEq, Repr

/-- Debug representation of a tungstenite `CloseFrame`. -/
abbrev CloseFrame := String

/-- Tungstenite `Message` variants (text, binary, ping, pong, close). -/
inductive WsMessage where
  | Text (payload : String)
  | Binary (payload : List Nat)
  | Ping (payload : List Nat)
  | Pong (payload : List Nat)
  | Close (closeFrame : Option CloseFrame)
deriving DecidableEq, Repr

/-- The `serde_json` deserialisation facilities used by the protocol parser for a
given `ExchangeMessage` target type, passed explicitly since they belong to an
external library: `from_str` and `from_slice`. -/
structure SerdeJson (ExchangeMessage : Type) where
  from_str : String → Except SerdeJsonError ExchangeMessage
  from_slice : List Nat → Except SerdeJsonError ExchangeMessage

/-- `std::str::Utf8Error`: position of the first invalid byte and the length of
the invalid sequence (`None` when the input ends in the middle of an otherwise
plausible sequence). -/
structure Utf8Error where
  valid_up_to : Nat
  error_len : Option Nat
deriving DecidableEq, Repr

/-- A UTF-8 continuation byte (`0x80..=0xBF`). -/
def utf8_cont (b : Nat) : Prop :=
  0x80 ≤ b ∧ b ≤ 0xBF

instance (b : Nat) : Decidable (utf8_cont b) :=
  inferInstanceAs (Decidable (_ ∧ _))

/-- `core::str::run_utf8_validation`, the validator behind
`String::from_utf8`: decode the byte list or report the first error, with the
same `valid_up_to` / `error_len` classification as the Rust standard library
(invalid lead or first-pair violation → 1, later bad continuation byte → 2 or 3,
input exhausted mid-sequence → `None`). `i` is the index of the current byte. -/
def run_utf8_validation (i : Nat) : List Nat → Except Utf8Error (List Char)
  | [] => .ok []
  | b :: rest =>
    if b ≤ 0x7F then
      (run_utf8_validation (i + 1) rest).map (List.cons (Char.ofNat b))
    else if b < 0xC2 then
      -- stray continuation byte or overlong two-byte lead 0xC0/0xC1
      .error ⟨i, some 1⟩
    else if b ≤ 0xDF then
      match rest with
      | [] => .error ⟨i, none⟩
      | b1 :: rest1 =>
        if utf8_cont b1 then
          (run_utf8_validation (i + 2) rest1).map
            (List.cons (Char.ofNat ((b - 0xC0) * 0x40 + (b1 - 0x80))))
        else .error ⟨i, some 1⟩
    else if b ≤ 0xEF then
      match rest with
      | [] => .error ⟨i, none⟩
      | b1 :: rest1 =>
        if (b = 0xE0 ∧ 0xA0 ≤ b1 ∧ b1 ≤ 0xBF)
            ∨ (0xE1 ≤ b ∧ b ≤ 0xEC ∧ utf8_cont b1)
            ∨ (b = 0xED ∧ 0x80 ≤ b1 ∧ b1 ≤ 0x9F)
            ∨ (0xEE ≤ b ∧ utf8_cont b1) then
          match rest1 with
          | [] => .error ⟨i, none⟩
          | b2 :: rest2 =>
            if utf8_cont b2 then
              (run_utf8_validation (i + 3) rest2).map
                (List.cons (Char.ofNat
                  ((b - 0xE0) * 0x1000 + (b1 - 0x80) * 0x40 + (b2 - 0x80))))
            else .error ⟨i, some 2⟩
        else .error ⟨i, some 1⟩
    else if b ≤ 0xF4 then
      match rest with
      | [] => .error ⟨i, none⟩
      | b1 :: rest1 =>
        if (b = 0xF0 ∧ 0x90 ≤ b1 ∧ b1 ≤ 0xBF)
            ∨ (0xF1 ≤ b ∧ b ≤ 0xF3 ∧ utf8_cont b1)
            ∨ (b = 0xF4 ∧ 0x80 ≤ b1 ∧ b1 ≤ 0x8F) then
          match rest1 with
          | [] => .error ⟨i, none⟩
          | b2 :: rest2 =>
            if utf8_cont b2 then
              match rest2 with
              | [] => .error ⟨i, none⟩
              | b3 :: rest3 =>
                if utf8_cont b3 then
                  (run_utf8_validation (i + 4) rest3).map
                    (List.cons (Char.ofNat
                      ((b - 0xF0) * 0x40000 + (b1 - 0x80) * 0x1000
                        + (b2 - 0x80) * 0x40 + (b3 - 0x80))))
                else .error ⟨i, some 3⟩
            else .error ⟨i, some 2⟩
        else .error ⟨i, some 1⟩
    else
      -- invalid leading byte 0xF5..0xFF
      .error ⟨i, some 1⟩

/-- The `Display` rendering of a `Utf8Error` (delegated to by
`FromUtf8Error::to_string`). -/
def utf8_error_to_string (e : Utf8Error) : String :=
  match e.error_len with
  | some n =>
    "invalid utf-8 sequence of " ++ toString n ++ " bytes from index "
      ++ toString e.valid_up_to
  | none => "incomplete utf-8 byte sequence from index " ++ toString e.valid_up_to

/-- `String::from_utf8(payload).unwrap_or_else(|x| x.to_string())` as used by
websocket.rs `process_binary` (line 84): the decoded string when the payload is
valid UTF-8, and the `FromUtf8Error` diagnostic — not the raw payload —
otherwise. -/
def string_from_utf8 (payload : List Nat) : String :=
  match run_utf8_validation 0 payload with
  | .ok chars => ⟨chars⟩
  | .error e => utf8_error_to_string e

variable {ExchangeMessage : Type}

/-- `process_text` (websocket.rs lines 52-67): deserialise the text payload; on
failure return `Some(Err(SocketError::Serde { error, payload }))`. -/
def process_text (de : SerdeJson ExchangeMessage) (payload : String) :
    Option (Except SocketError ExchangeMessage) :=
  some (match de.from_str payload with
    | .ok msg => .ok msg
    | .error error => .error (.Serde error payload))

/-- `process_binary` (websocket.rs lines 69-89): deserialise the byte payload; on
failure return `Some(Err(SocketError::Serde { error, payload }))` with the payload
converted to a string by `String::from_utf8(..).unwrap_or_else(|x| x.to_string())`. -/
def process_binary (de : SerdeJson ExchangeMessage) (payload : List Nat) :
    Option (Except SocketError ExchangeMessage) :=
  some (match de.from_slice payload with
    | .ok msg => .ok msg
    | .error error => .error (.Serde error (string_from_utf8 payload)))

/-- `process_ping` (websocket.rs lines 92-95): log at trace level and return `None`. -/
def process_ping (_ping : List Nat) : Option (Except SocketError ExchangeMessage) :=
  none

/-- `process_pong` (websocket.rs lines 97-101): log at trace level and return `None`. -/
def process_pong (_pong : List Nat) : Option (Except SocketError ExchangeMessage) :=
  none

/-- The `format!("{:?}", close_frame)` rendering of the optional close frame in
`process_close_frame`, mirroring the Debug format of `Option`. -/
def format_close_frame : Option CloseFrame → String
  | none => "None"
  | some frame => "Some(" ++ frame ++ ")"

/-- `process_close_frame` (websocket.rs lines 103-108): always returns
`Some(Err(SocketError::Terminated(close_frame)))`. -/
def process_close_frame (close_frame : Option CloseFrame) :
    Option (Except SocketError ExchangeMessage) :=
  some (.error (.Terminated (format_close_frame close_frame)))

namespace WebSocketProtocol

/-- `WebSocketParser::parse` (websocket.rs lines 30-48): dispatch on the transport
result; transport errors are wrapped in `SocketError::WebSocket`. -/
def parse (de : SerdeJson ExchangeMessage) :
    Except WsError WsMessage → Option (Except SocketError ExchangeMessage)
  | .ok (.Text text) => process_text de text
  | .ok (.Binary binary) => process_binary de binary
  | .ok (.Ping ping) => process_ping ping
  | .ok (.Pong pong) => process_pong pong
  | .ok (.Close close_frame) => process_close_frame close_frame
  | .error ws_err => some (.error (.WebSocket ws_err))

end WebSocketProtocol

/-! ## ExchangeSocket (src/socket/mod.rs)

The transport (`Socket: Stream<Item = StreamItem>`) is modelled as the list of
results its successive `poll_next` calls produce: `TransportPoll.Ready input`
stands for `Poll::Ready(Some(input))`, `TransportPoll.Pending` for a
`Poll::Pending` readiness miss, and exhaustion of the list for
`Poll::Ready(None)` (end of the underlying stream). -/

/-- One result of polling the underlying transport. -/
inductive TransportPoll (StreamItem : Type) where
  | Ready (input : StreamItem)
  | Pending
deriving DecidableEq, Repr

/-- `std::task::Poll` for a stream pull: `Ready (some item)`, `Ready none`
(end of stream) or `Pending`. -/
inductive Poll (α : Type) where
  | Ready (a : α)
  | Pending
deriving DecidableEq, Repr

/-- The mutable state of `ExchangeSocket` (src/socket/mod.rs lines 26-42): the
transport, the transformer state and the `VecDeque` output buffer. The parser
and the transformer's `transform` method are static/function values and are
passed to `poll_next` separately. -/
structure ExchangeSocket (StreamItem Output T : Type) where
  socket : List (TransportPoll StreamItem)
  transformer : T
  buffer : List (Except SocketError Output)

variable {StreamItem Output T : Type}

/-- The body of the `loop` in `ExchangeSocket::poll_next` (socket/mod.rs lines
55-87) for the iterations where the buffer is empty: poll the transport, parse,
and on a successful parse transform and push the outputs onto the (empty) buffer,
then re-enter the loop — popping the first pushed output if there is one, else
polling the transport again. Mirrors the source arm for arm:
- transport `Poll::Ready(None)` (modelled by the exhausted list) → `Poll::Ready(None)`;
- transport `Poll::Pending` → `Poll::Pending`;
- parser `Some(Ok(msg))` → transform, push outputs, loop (lines 71, 80-85);
- parser `Some(Err(err))` → `Poll::Ready(Some(Err(err)))` (line 74);
- parser `None` (skip) → `return Poll::Pending` (line 77 of the source). -/
def poll_loop (parse : StreamItem → Option (Except SocketError ExchangeMessage))
    (transform : T → ExchangeMessage → T × List (Except SocketError Output))
    (t : T) : List (TransportPoll StreamItem) →
      ExchangeSocket StreamItem Output T × Poll (Option (Except SocketError Output))
  | [] => (⟨[], t, []⟩, .Ready none)
  | .Pending :: socket => (⟨socket, t, []⟩, .Pending)
  | .Ready input :: socket =>
    match parse input with
    | some (.ok exchange_message) =>
      match transform t exchange_message with
      | (t', []) => poll_loop parse transform t' socket
      | (t', output :: outputs) => (⟨socket, t', outputs⟩, .Ready (some output))
    | some (.error err) => (⟨socket, t, []⟩, .Ready (some (.error err)))
    | none => (⟨socket, t, []⟩, .Pending)

/-- `ExchangeSocket::poll_next` (socket/mod.rs lines 54-88): first flush the
buffer if non-empty (lines 56-59), otherwise run the transport/parse/transform
loop. -/
def poll_next (parse : StreamItem → Option (Except SocketError ExchangeMessage))
    (transform : T → ExchangeMessage → T × List (Except SocketError Output))
    (s : ExchangeSocket StreamItem Output T) :
    ExchangeSocket StreamItem Output T × Poll (Option (Except SocketError Output)) :=
  match s.buffer with
  | output :: rest => (⟨s.socket, s.transformer, rest⟩, .Ready (some output))
  | [] => poll_loop parse transform s.transformer s.socket

/-- Denotation of the pipeline: the per-frame outputs, concatenated in
frame-arrival order; within one frame, in the order the transformer produced
them. Parser errors contribute themselves as single items; skip frames and
transport readiness misses contribute nothing. -/
def frame_outputs (parse : StreamItem → Option (Except SocketError ExchangeMessage))
    (transform : T → ExchangeMessage → T × List (Except SocketError Output))
    (t : T) : List (TransportPoll StreamItem) → List (Except SocketError Output)
  | [] => []
  | .Pending :: socket => frame_outputs parse transform t socket
  | .Ready input :: socket =>
    match parse input with
    | some (.ok exchange_message) =>
      match transform t exchange_message with
      | (t', outputs) => outputs ++ frame_outputs parse transform t' socket
    | some (.error err) => .error err :: frame_outputs parse transform t socket
    | none => frame_outputs parse transform t socket

/-- Repeatedly pull the stream (the consumer's successive `poll_next` calls),
collecting the items of every `Poll::Ready(Some(..))`, skipping `Poll::Pending`,
and stopping at `Poll::Ready(None)`; `fuel` bounds the number of pulls. -/
def pull_all (parse : StreamItem → Option (Except SocketError ExchangeMessage))
    (transform : T → ExchangeMessage → T × List (Except SocketError Output)) :
    Nat → ExchangeSocket StreamItem Output T → List (Except SocketError Output)
  | 0, _ => []
  | fuel + 1, s =>
    match poll_next parse transform s with
    | (s', .Ready (some item)) => item :: pull_all parse transform fuel s'
    | (s', .Pending) => pull_all parse transform fuel s'
    | (_, .Ready none) => []

/-- Number of pulls after which the stream state `s` is fully drained: every
buffered item, every transport element and every pipeline output costs at most
one pull. -/
def pollFuel (parse : StreamItem → Option (Except SocketError ExchangeMessage))
    (transform : T → ExchangeMessage → T × List (Except SocketError Output))
    (s : ExchangeSocket StreamItem Output T) : Nat :=
  s.buffer.length + s.socket.length +
    (frame_outputs parse transform s.transformer s.socket).length

/-- All items the stream still owes the consumer: the buffered items followed by
the denotation of the remaining transport frames. -/
def stream_owed (parse : StreamItem → Option (Except SocketError ExchangeMessage))
    (transform : T → ExchangeMessage → T × List (Except SocketError Output))
    (s : ExchangeSocket StreamItem Output T) : List (Except SocketError Output) :=
  s.buffer ++ frame_outputs parse transform s.transformer s.socket

/-- The items a single poll result delivers to the consumer: one for
`Ready (some item)`, none otherwise. -/
def poll_emitted : Poll (Option (Except SocketError Output)) → List (Except SocketError Output)
  | .Ready (some item) => [item]
  | .Ready none => []
  | .Pending => []

/-! ## Public model (src/public/model.rs) and Binance adapter
(src/public/binance/mod.rs, src/public/binance/futures.rs) -/

/-- `DateTime<Utc>`, modelled as epoch milliseconds; values produced by
`Utc::now()` are threaded in explicitly as a `now` argument. -/
abbrev DateTime := Nat

/-- `rust_decimal::Decimal`, modelled as a rational number. -/
abbrev Decimal := Rat

/-- `Sequence(pub u64)` newtype (model.rs line 86). -/
abbrev Sequence := Nat

/-- `StreamId(pub String)` newtype (model.rs line 127). -/
abbrev StreamId := String

/-- `Subscription` (model.rs lines 10-13). -/
inductive Subscription where
  | Trades (instrument : Instrument)
deriving DecidableEq, Repr

/-- `StreamMeta` (model.rs lines 70-74); the `Sequence` field is a `u64` counter,
written as a bare `Nat` here. -/
structure StreamMeta where
  sequence : Nat
  subscription : Subscription
deriving DecidableEq, Repr

/-- `StreamMeta::new` (model.rs lines 76-83): a freshly registered subscription
starts at `Sequence(0)`. -/
def StreamMeta.new (subscription : Subscription) : StreamMeta :=
  ⟨0, subscription⟩

/-- `Direction` (model.rs lines 64-68). -/
inductive Direction where
  | Long
  | Short
deriving DecidableEq, Repr

/-- Normalised public `Trade` (model.rs lines 51-61). -/
structure Trade where
  id : String
  exchange : String
  instrument : Instrument
  received_timestamp : Nat
  exchange_timestamp : Nat
  price : Decimal
  quantity : Decimal
  direction : Direction
deriving DecidableEq, Repr

/-- `MarketData` (model.rs lines 42-48). -/
inductive MarketData where
  | Trade (trade : Trade)
  | Candle
  | Kline
  | OrderBook
deriving DecidableEq, Repr

/-- `MarketEvent` (model.rs lines 24-29); `sequence` is the `u64` `Sequence`
newtype and `timestamp` a `DateTime<Utc>`, both written as bare `Nat` here. -/
structure MarketEvent where
  sequence : Nat
  timestamp : Nat
  data : MarketData
deriving DecidableEq, Repr

/-- `MarketEvent::new` (model.rs lines 31-39); the source stamps
`timestamp: Utc::now()`, threaded here as `now`. -/
def MarketEvent.new (now : DateTime) (sequence : Sequence) (data : MarketData) : MarketEvent :=
  ⟨sequence, now, data⟩

/-- `BinanceSubscribed` (binance/mod.rs lines 21-25); `id` is a `u32`. -/
structure BinanceSubscribed where
  result : Option (List String)
  id : Nat
deriving DecidableEq, Repr

/-- `BinanceTrade` (binance/mod.rs lines 28-44); `trade_ts` and `id` are `u64`. -/
structure BinanceTrade where
  event_type : String
  symbol : String
  trade_ts : Nat
  id : Nat
  price : Decimal
  quantity : Decimal
  buyer_is_maker : Bool
deriving DecidableEq, Repr

/-- `str::to_lowercase`, modelled character-wise over the string's code points
(the exchange symbols involved are ASCII, where the two agree). -/
def to_lowercase (s : String) : String :=
  ⟨s.data.map Char.toLower⟩

/-- `StreamIdentifier for BinanceTrade` (binance/mod.rs lines 46-50):
`format!("{}@{}", symbol.to_lowercase(), event_type)`. -/
def BinanceTrade.to_stream_id (trade : BinanceTrade) : StreamId :=
  to_lowercase trade.symbol ++ "@" ++ trade.event_type

/-- `From<(ExchangeId, Instrument, BinanceTrade)> for MarketData`
(binance/mod.rs lines 52-69); `received_timestamp: Utc::now()` is threaded as
`now`, and `epoch_ms_to_datetime_utc(trade_ts)` is the identity on the epoch-ms
model of `DateTime`. -/
def MarketData.from_binance_trade (now : DateTime) (exchange : String)
    (instrument : Instrument) (trade : BinanceTrade) : MarketData :=
  .Trade {
    id := toString trade.id
    exchange := exchange
    instrument := instrument
    received_timestamp := now
    exchange_timestamp := trade.trade_ts
    price := trade.price
    quantity := trade.quantity
    direction := if trade.buyer_is_maker then .Short else .Long }

/-- `BinanceMessage` (binance/mod.rs lines 13-18). -/
inductive BinanceMessage where
  | Subscribed (sub_confirm : BinanceSubscribed)
  | Trade (trade : BinanceTrade)
deriving DecidableEq, Repr

/-! `HashMap<StreamId, StreamMeta>` is modelled as an association list with
first-match lookup (`HashMap::get_mut`), in-place update of the value found
(write-back through the `get_mut` reference), and replace-on-insert. -/

/-- `HashMap::get` / `get_mut` lookup. -/
def streams_get : List (StreamId × StreamMeta) → StreamId → Option StreamMeta
  | [], _ => none
  | (k, v) :: rest, key => if k = key then some v else streams_get rest key

/-- Write-back of a mutation through a `get_mut` reference: update the value at
`key` if present, leave the map unchanged otherwise. -/
def streams_set : List (StreamId × StreamMeta) → StreamId → StreamMeta →
    List (StreamId × StreamMeta)
  | [], _, _ => []
  | (k, v) :: rest, key, value =>
    if k = key then (k, value) :: rest else (k, v) :: streams_set rest key value

/-- `HashMap::insert`: replace the value at an existing key, append otherwise. -/
def streams_insert (m : List (StreamId × StreamMeta)) (key : StreamId)
    (value : StreamMeta) : List (StreamId × StreamMeta) :=
  if (streams_get m key).isSome then streams_set m key value else m ++ [(key, value)]

/-- `BinanceFutures` transformer state (futures.rs lines 24-27). -/
structure BinanceFutures where
  streams : List (StreamId × StreamMeta)
deriving DecidableEq, Repr

/-- `BinanceFutures::EXCHANGE` (futures.rs line 30). -/
def BinanceFutures.EXCHANGE : String := "binance_futures"

/-- `BinanceFutures::get_stream_id` (futures.rs lines 89-95):
`format!("{}{}@aggTrade", base, quote)`. -/
def BinanceFutures.get_stream_id : Subscription → StreamId
  | .Trades instrument => instrument.base ++ instrument.quote ++ "@aggTrade"

/-- `BinanceFutures::get_stream_meta` (futures.rs lines 97-112): look the
`StreamId` up; if found, return the `Instrument` and the pre-increment
`Sequence` and increment the stored counter by one (`u64` arithmetic, modulo
`2 ^ 64`); if not found, return `SocketError::Unidentifiable` carrying the
unresolved id, leaving the map untouched. The mutated `self` is returned
explicitly. -/
def BinanceFutures.get_stream_meta (self : BinanceFutures) (stream_id : StreamId) :
    BinanceFutures × Except SocketError (Instrument × Sequence) :=
  match streams_get self.streams stream_id with
  | none => (self, .error (.Unidentifiable stream_id))
  | some stream_meta =>
    let instrument := match stream_meta.subscription with
      | .Trades instrument => instrument
    let sequence := stream_meta.sequence
    (⟨streams_set self.streams stream_id
        { stream_meta with sequence := (sequence + 1) % 2 ^ 64 }⟩,
     .ok (instrument, sequence))

/-- `BinanceFutures::transform` (futures.rs lines 62-86). The source's
`OutputIter = std::option::IntoIter<MarketEvent>` (zero or one events) is
modelled as `Option MarketEvent`; `Utc::now()` inside `MarketEvent::new` and
`MarketData::from` is threaded as `now`. -/
def BinanceFutures.transform (self : BinanceFutures) (now : DateTime)
    (input : BinanceMessage) : BinanceFutures × Except SocketError (Option MarketEvent) :=
  match input with
  | .Subscribed sub_confirm =>
    if sub_confirm.result.isSome then
      (self, .error (.SubscribeError ""))
    else
      (self, .ok none)
  | .Trade trade =>
    match self.get_stream_meta trade.to_stream_id with
    | (self', .error err) => (self', .error err)
    | (self', .ok (instrument, sequence)) =>
      (self', .ok (some (MarketEvent.new now sequence
        (MarketData.from_binance_trade now BinanceFutures.EXCHANGE instrument trade))))

/-- `BinanceFutures::generate_subscriptions` (futures.rs lines 37-59): for each
`Subscription`, derive its channel, register `StreamMeta::new` under it in the
internal map, and collect the channels (the wire payload built from them is a
single JSON value and is not needed by the claims). -/
def BinanceFutures.generate_subscriptions (self : BinanceFutures)
    (subscriptions : List Subscription) : BinanceFutures × List StreamId :=
  match subscriptions with
  | [] => (self, [])
  | subscription :: rest =>
    let channel := BinanceFutures.get_stream_id subscription
    let self' : BinanceFutures :=
      ⟨streams_insert self.streams channel (StreamMeta.new subscription)⟩
    let (self'', channels) := self'.generate_subscriptions rest
    (self'', channel :: channels)

/-- Run the transformer over a list of timestamped inbound messages, collecting
each `transform` result in order (the transformer is driven message by message
by the exchange stream). -/
def run_transformer (self : BinanceFutures) :
    List (DateTime × BinanceMessage) → List (Except SocketError (Option MarketEvent))
  | [] => []
  | (now, msg) :: rest =>
    let (self', out) := self.transform now msg
    out :: run_transformer self' rest

/-- The transformer state after consuming a list of timestamped inbound
messages. -/
def run_state (self : BinanceFutures) :
    List (DateTime × BinanceMessage) → BinanceFutures
  | [] => self
  | (now, msg) :: rest => run_state (self.transform now msg).1 rest

/-- The output events emitted for the subscription channel `S`, in pull order: the
events successfully produced from trade messages whose derived `StreamId` is `S`. -/
def events_for (S : StreamId) (self : BinanceFutures) :
    List (DateTime × BinanceMessage) → List MarketEvent
  | [] => []
  | (now, msg) :: rest =>
    let (self', out) := self.transform now msg
    let tail := events_for S self' rest
    match msg, out with
    | .Trade trade, .ok (some e) => if trade.to_stream_id = S then e :: tail else tail
    | _, _ => tail

/-! ## Stream registry / builder (src/public/explore.rs) -/

/-- `Exchange` enum (explore.rs lines 13-16). -/
inductive Exchange where
  | BinanceFutures
deriving DecidableEq, Repr

/-- `StreamKind` enum (explore.rs lines 48-51). -/
inductive StreamKind where
  | Trade
deriving DecidableEq, Repr

/-- `StreamConfig` (explore.rs lines 18-22). -/
structure StreamConfig where
  instrument : Instrument
  kind : StreamKind
deriving DecidableEq, Repr

/-- `From<StreamConfig> for Subscription` (model.rs lines 15-21). -/
def Subscription.from_config (stream : StreamConfig) : Subscription :=
  match stream.kind with
  | .Trade => .Trades stream.instrument

/-- `StreamBuilder` (explore.rs lines 54-56); the `HashMap<Exchange,
Vec<StreamConfig>>` is an association list. -/
structure StreamBuilder where
  config : List (Exchange × List StreamConfig)
deriving DecidableEq, Repr

/-- `StreamBuilder::new` (explore.rs lines 59-63). -/
def StreamBuilder.new : StreamBuilder := ⟨[]⟩

/-- `HashMap::get` lookup on the builder configuration. -/
def config_get : List (Exchange × List StreamConfig) → Exchange →
    Option (List StreamConfig)
  | [], _ => none
  | (k, v) :: rest, key => if k = key then some v else config_get rest key

/-- Value replacement at an existing key of the builder configuration. -/
def config_set : List (Exchange × List StreamConfig) → Exchange →
    List StreamConfig → List (Exchange × List StreamConfig)
  | [], _, _ => []
  | (k, v) :: rest, key, value =>
    if k = key then (k, value) :: rest else (k, v) :: config_set rest key value

/-- `StreamBuilder::add` (explore.rs lines 65-72): `HashMap::insert` of the
collected configs under the exchange key. -/
def StreamBuilder.add (self : StreamBuilder) (exchange : Exchange)
    (config : List StreamConfig) : StreamBuilder :=
  if (config_get self.config exchange).isSome then
    ⟨config_set self.config exchange config⟩
  else
    ⟨self.config ++ [(exchange, config)]⟩

/-- The `for (exchange, streams) in self.config` loop of `StreamBuilder::build`
(explore.rs lines 82-96): map each exchange's configs to `Subscription`s, call
`consume` (connect + subscribe + spawn the forwarding task, abstracted as a
function since it performs I/O), propagate its error via `?`, and collect the
receivers. The second component is the trace of exchanges for which `consume`
was invoked. -/
def build_loop {Rx : Type} (consume : List Subscription → Except SocketError Rx) :
    List (Exchange × List StreamConfig) →
      Except SocketError (List (Exchange × Rx)) × List Exchange
  | [] => (.ok [], [])
  | (exchange, streams) :: rest =>
    let subscriptions := streams.map Subscription.from_config
    match consume subscriptions with
    | .error err => (.error err, [exchange])
    | .ok exchange_rx =>
      match build_loop consume rest with
      | (.error err, trace) => (.error err, exchange :: trace)
      | (.ok tail, trace) => (.ok ((exchange, exchange_rx) :: tail), exchange :: trace)

/-- `StreamBuilder::build` (explore.rs lines 74-99): if the configuration map is
empty, return `SocketError::SubscribeError("no provided streams to subscribe
to")` before connecting anything; otherwise run the per-exchange loop. -/
def StreamBuilder.build {Rx : Type} (self : StreamBuilder)
    (consume : List Subscription → Except SocketError Rx) :
    Except SocketError (List (Exchange × Rx)) × List Exchange :=
  if self.config.length = 0 then
    (.error (.SubscribeError "no provided streams to subscribe to"), [])
  else
    build_loop consume self.config

/-- The body of the forwarding task spawned by `consume` (explore.rs lines
111-128): `while let Some(result) = stream.next().await` — forward every event
of an `Ok(events)` item onto the unbounded channel, and on an `Err(err)` item
(any `SocketError`, transport and `Terminated` errors included) log a warning
and `continue`. The input list models the successive `Some(..)` items yielded
by the exchange stream; the loop ends only when the stream is exhausted. The
result is the list of events sent over the channel, in order. -/
def consume_forward : List (Except SocketError (List MarketEvent)) → List MarketEvent
  | [] => []
  | .ok events :: rest => events ++ consume_forward rest
  | .error _ :: rest => consume_forward rest

/-! ## Concrete fixtures used by witnesses and counterexamples -/

/-- A sample deserialiser for a toy `ExchangeMessage := String`: the payload
`"good"` deserialises, anything else fails. -/
def deSample : SerdeJson String :=
  ⟨fun s => if s = "good" then .ok "goodmsg" else .error "parse fail",
   fun _ => .error "no binary"⟩

/-- The websocket protocol parser instantiated with the sample deserialiser. -/
def parseSample : Except WsError WsMessage → Option (Except SocketError String) :=
  WebSocketProtocol.parse deSample

/-- A sample stateless transformer emitting one `Ok` output per message. -/
def transformSample : Unit → String → Unit × List (Except SocketError String) :=
  fun u msg => (u, [.ok msg])

/-- A sample trade frame for the registered Binance channel
`"btcusdt@aggTrade"`. -/
def tradeSample : BinanceTrade :=
  ⟨"aggTrade", "BTCUSDT", 1, 1, 1, 1, false⟩

/-- A sample market event. -/
def eventSample : MarketEvent :=
  MarketEvent.new 0 0 .Candle

/-- A sample subscription. -/
def subSample : Subscription :=
  .Trades ⟨"btc", "usdt", .FuturePerpetual⟩

/-- A `BinanceFutures` transformer with the sample subscription registered under
the channel `"btcusdt@aggTrade"` (the state `generate_subscriptions` produces for
`subSample`). -/
def binanceSample : BinanceFutures :=
  ⟨[("btcusdt@aggTrade", StreamMeta.new subSample)]⟩

/-- Three timestamped inbound trade messages for the registered channel. -/
def msgsSample : List (Nat × BinanceMessage) :=
  [(1, .Trade tradeSample), (2, .Trade tradeSample), (3, .Trade tradeSample)]

/-- A sample exchange socket state: a non-empty buffer and a transport yielding a
valid frame, a ping, a readiness miss, a malformed frame and a valid frame. -/
def socketSample : ExchangeSocket (Except WsError WsMessage) String Unit :=
  ⟨[.Ready (.ok (.Text "good")), .Ready (.ok (.Ping [])), .Pending,
    .Ready (.ok (.Text "bad")), .Ready (.ok (.Text "good"))], (), [.ok "buffered"]⟩

/-! ## Helper lemmas -/

theorem poll_loop_spec (parse : StreamItem → Option (Except SocketError ExchangeMessage))
    (transform : T → ExchangeMessage → T × List (Except SocketError Output))
    (socket : List (TransportPoll StreamItem)) (t : T) :
    frame_outputs parse transform t socket
      = poll_emitted (poll_loop parse transform t socket).2
        ++ stream_owed parse transform (poll_loop parse transform t socket).1
    ∧ ((poll_loop parse transform t socket).2 = .Ready none →
        frame_outputs parse transform t socket = [])
    ∧ ((poll_loop parse transform t socket).2 ≠ .Ready none →
        pollFuel parse transform (poll_loop parse transform t socket).1 + 1
          ≤ socket.length + (frame_outputs parse transform t socket).length) := by
  induction socket generalizing t with
  | nil =>
    refine ⟨?_, fun _ => rfl, fun h => absurd rfl h⟩
    simp [poll_loop, frame_outputs, poll_emitted, stream_owed]
  | cons head rest ih =>
    cases head with
    | Pending =>
      refine ⟨?_, ?_, ?_⟩
      · simp [poll_loop, frame_outputs, poll_emitted, stream_owed]
      · intro h
        simp [poll_loop] at h
      · intro _
        simp only [poll_loop, frame_outputs, pollFuel, List.length_nil, List.length_cons]
        omega
    | Ready input =>
      rcases hp : parse input with _ | msg
      · -- parser skip: return Poll::Pending
        refine ⟨?_, ?_, ?_⟩
        · simp [poll_loop, frame_outputs, hp, poll_emitted, stream_owed]
        · intro h
          simp [poll_loop, hp] at h
        · intro _
          simp only [poll_loop, hp, frame_outputs, pollFuel, List.length_nil,
            List.length_cons]
          omega
      · rcases msg with err | m
        · -- parser error: emit it as the next item
          refine ⟨?_, ?_, ?_⟩
          · simp [poll_loop, frame_outputs, hp, poll_emitted, stream_owed]
          · intro h
            simp [poll_loop, hp] at h
          · intro _
            simp only [poll_loop, hp, frame_outputs, pollFuel, List.length_nil,
              List.length_cons]
            omega
        · -- parser success: transform and push outputs
          rcases ht : transform t m with ⟨t', outputs⟩
          cases outputs with
          | nil =>
            have := ih t'
            refine ⟨?_, ?_, ?_⟩
            · simpa [poll_loop, frame_outputs, hp, ht] using this.1
            · intro h
              simp only [poll_loop, hp, ht] at h
              simpa [frame_outputs, hp, ht] using this.2.1 h
            · intro h
              simp only [poll_loop, hp, ht] at h ⊢
              have hb := this.2.2 h
              simp only [frame_outputs, hp, ht, List.nil_append, List.length_cons]
              omega
          | cons output outputs =>
            refine ⟨?_, ?_, ?_⟩
            · simp [poll_loop, frame_outputs, hp, ht, poll_emitted, stream_owed]
            · intro h
              simp [poll_loop, hp, ht] at h
            · intro _
              simp only [poll_loop, hp, ht, frame_outputs, pollFuel, stream_owed,
                List.length_cons, List.length_append]
              omega

theorem pull_all_spec (parse : StreamItem → Option (Except SocketError ExchangeMessage))
    (transform : T → ExchangeMessage → T × List (Except SocketError Output)) :
    ∀ (fuel : Nat) (s : ExchangeSocket StreamItem Output T),
      pollFuel parse transform s ≤ fuel →
      pull_all parse transform fuel s = stream_owed parse transform s := by
  intro fuel
  induction fuel with
  | zero =>
    rintro ⟨socket, t, buffer⟩ h
    simp only [pollFuel, Nat.le_zero, Nat.add_eq_zero, List.length_eq_zero] at h
    obtain ⟨⟨hbuf, hsock⟩, -⟩ := h
    subst hbuf hsock
    simp [pull_all, stream_owed, frame_outputs]
  | succ fuel ih =>
    rintro ⟨socket, t, buffer⟩ h
    cases buffer with
    | cons b rest =>
      have hb : pollFuel parse transform (⟨socket, t, rest⟩ : ExchangeSocket StreamItem Output T) ≤ fuel := by
        simp only [pollFuel, List.length_cons] at h ⊢
        omega
      have := ih ⟨socket, t, rest⟩ hb
      simp only [pull_all, poll_next] at *
      simpa [stream_owed] using this
    | nil =>
      have spec := poll_loop_spec parse transform socket t
      rcases hr : poll_loop parse transform t socket with ⟨s', r⟩
      rw [hr] at spec
      dsimp only at spec
      cases r with
      | Pending =>
        have hfuel : pollFuel parse transform s' ≤ fuel := by
          have := spec.2.2 (by simp)
          simp only [pollFuel, List.length_nil] at h
          omega
        have := ih s' hfuel
        simp only [pull_all, poll_next, hr, this, stream_owed, List.nil_append]
        simpa [poll_emitted, stream_owed] using spec.1.symm
      | Ready item =>
        cases item with
        | none =>
          have hempty := spec.2.1 rfl
          simp [pull_all, poll_next, hr, stream_owed, hempty]
        | some item =>
          have hfuel : pollFuel parse transform s' ≤ fuel := by
            have := spec.2.2 (by simp)
            simp only [pollFuel, List.length_nil] at h
            omega
          have := ih s' hfuel
          simp only [pull_all, poll_next, hr, this, stream_owed, List.nil_append]
          simpa [poll_emitted, stream_owed] using spec.1.symm

theorem streams_get_set_self (m : List (StreamId × StreamMeta)) (key : StreamId)
    (value : StreamMeta) (w : StreamMeta) (h : streams_get m key = some w) :
    streams_get (streams_set m key value) key = some value := by
  induction m with
  | nil => simp [streams_get] at h
  | cons head rest ih =>
    rcases head with ⟨k, v⟩
    by_cases hk : k = key
    · simp [streams_get, streams_set, hk]
    · simp only [streams_get, streams_set, hk, if_false] at h ⊢
      exact ih h

theorem streams_get_set_other (m : List (StreamId × StreamMeta)) (key other : StreamId)
    (value : StreamMeta) (h : other ≠ key) :
    streams_get (streams_set m key value) other = streams_get m other := by
  induction m with
  | nil => simp [streams_set]
  | cons head rest ih =>
    rcases head with ⟨k, v⟩
    by_cases hk : k = key
    · subst hk
      simp [streams_get, streams_set, Ne.symm h]
    · simp only [streams_set, hk, if_false, streams_get]
      by_cases ho : k = other <;> simp [ho, ih]

theorem events_for_sequences (S : StreamId) :
    ∀ (msgs : List (DateTime × BinanceMessage)) (self : BinanceFutures)
      (meta : StreamMeta),
      streams_get self.streams S = some meta →
      meta.sequence + msgs.length < 2 ^ 64 →
      (events_for S self msgs).map MarketEvent.sequence
        = List.range' meta.sequence (events_for S self msgs).length
      ∧ streams_get (run_state self msgs).streams S
        = some ⟨meta.sequence + (events_for S self msgs).length, meta.subscription⟩ := by
  intro msgs
  induction msgs with
  | nil =>
    intro self meta hget _
    refine ⟨by simp [events_for, List.range'], ?_⟩
    simp only [events_for, run_state, List.length_nil, Nat.add_zero]
    exact hget
  | cons head rest ih =>
    rcases head with ⟨now, msg⟩
    intro self meta hget hlen
    have hlen' : meta.sequence + rest.length + 1 < 2 ^ 64 := by
      simp only [List.length_cons] at hlen
      omega
    cases msg with
    | Subscribed sub_confirm =>
      cases hres : sub_confirm.result with
      | some v =>
        have htrans : BinanceFutures.transform self now (.Subscribed sub_confirm)
            = (self, .error (.SubscribeError "")) := by
          simp [BinanceFutures.transform, hres]
        have hrest := ih self meta hget (by omega)
        exact ⟨by simpa [events_for, htrans] using hrest.1,
               by simpa [events_for, run_state, htrans] using hrest.2⟩
      | none =>
        have htrans : BinanceFutures.transform self now (.Subscribed sub_confirm)
            = (self, .ok none) := by
          simp [BinanceFutures.transform, hres]
        have hrest := ih self meta hget (by omega)
        exact ⟨by simpa [events_for, htrans] using hrest.1,
               by simpa [events_for, run_state, htrans] using hrest.2⟩
    | Trade trade =>
      by_cases hS : trade.to_stream_id = S
      · -- the data message resolves to the registered channel S
        have hmod : (meta.sequence + 1) % 2 ^ 64 = meta.sequence + 1 :=
          Nat.mod_eq_of_lt (by omega)
        have htrans : BinanceFutures.transform self now (.Trade trade)
            = (⟨streams_set self.streams S
                  { meta with sequence := (meta.sequence + 1) % 2 ^ 64 }⟩,
               .ok (some (MarketEvent.new now meta.sequence
                 (MarketData.from_binance_trade now BinanceFutures.EXCHANGE
                   (match meta.subscription with | .Trades instrument => instrument)
                   trade)))) := by
          simp [BinanceFutures.transform, BinanceFutures.get_stream_meta, hS, hget]
        have hget' : streams_get
            (streams_set self.streams S
              { meta with sequence := (meta.sequence + 1) % 2 ^ 64 }) S
            = some { meta with sequence := meta.sequence + 1 } := by
          rw [streams_get_set_self self.streams S _ meta hget, hmod]
        have hrest := ih
          ⟨streams_set self.streams S
            { meta with sequence := (meta.sequence + 1) % 2 ^ 64 }⟩
          { meta with sequence := meta.sequence + 1 }
          hget'
          (by show meta.sequence + 1 + rest.length < 2 ^ 64
              omega)
        refine ⟨?_, ?_⟩
        · simp only [events_for, htrans, hS, if_true, List.map_cons, List.length_cons,
            MarketEvent.new]
          rw [List.range'_succ]
          exact congrArg (List.cons meta.sequence) hrest.1
        · simp only [events_for, run_state, htrans, hS, if_true, List.length_cons]
          rw [hrest.2]
          simp only [Option.some.injEq, StreamMeta.mk.injEq]
          exact ⟨by omega, trivial⟩
      · -- the data message belongs to another channel (or to none)
        cases hget2 : streams_get self.streams trade.to_stream_id with
        | none =>
          have htrans : BinanceFutures.transform self now (.Trade trade)
              = (self, .error (.Unidentifiable trade.to_stream_id)) := by
            simp [BinanceFutures.transform, BinanceFutures.get_stream_meta, hget2]
          have hrest := ih self meta hget (by omega)
          exact ⟨by simpa [events_for, htrans] using hrest.1,
                 by simpa [events_for, run_state, htrans] using hrest.2⟩
        | some w =>
          have htrans : BinanceFutures.transform self now (.Trade trade)
              = (⟨streams_set self.streams trade.to_stream_id
                    { w with sequence := (w.sequence + 1) % 2 ^ 64 }⟩,
                 .ok (some (MarketEvent.new now w.sequence
                   (MarketData.from_binance_trade now BinanceFutures.EXCHANGE
                     (match w.subscription with | .Trades instrument => instrument)
                     trade)))) := by
            simp [BinanceFutures.transform, BinanceFutures.get_stream_meta, hget2]
          have hpreserve : streams_get
              (streams_set self.streams trade.to_stream_id
                { w with sequence := (w.sequence + 1) % 2 ^ 64 }) S = some meta := by
            rw [streams_get_set_other self.streams trade.to_stream_id S _
              (fun h => hS h.symm)]
            exact hget
          have hrest := ih
            ⟨streams_set self.streams trade.to_stream_id
              { w with sequence := (w.sequence + 1) % 2 ^ 64 }⟩
            meta hpreserve (by omega)
          exact ⟨by simpa [events_for, htrans, hS] using hrest.1,
                 by simpa [events_for, run_state, htrans, hS] using hrest.2⟩

/-! ## Claims -/

/-- C1. Claim: when the protocol parser maps a frame to `None` (a ping/pong skip
frame), the poll loop goes back to polling the transport for the next frame
within the same pull operation, without emitting any item. The code instead
returns `Poll::Pending` from the pull (socket/mod.rs line 77): here, a single
pull over a transport holding a ping frame followed by a data frame consumes
only the ping and ends as `Pending`, leaving the data frame unpolled — no item
is emitted for the skip, but the transport is not polled again within the same
pull. -/
theorem claim_C1 :
    poll_next parseSample transformSample
        ⟨[.Ready (.ok (.Ping [])), .Ready (.ok (.Text "good"))], (), []⟩
      = (⟨[.Ready (.ok (.Text "good"))], (), []⟩, .Pending) := rfl

/-- C2. For every registered subscription channel `S` (registration stores
`StreamMeta::new`, i.e. sequence 0), the events emitted for `S` carry sequences
`0, 1, 2, ...` in pull order — consecutive events differ by exactly one, the
first is stamped 0 — and the stored counter afterwards equals the number of
successfully transformed data messages for `S`: incremented exactly once per
such message, never decremented or reset. The hypothesis `msgs.length < 2 ^ 64`
keeps the `u64` counter from wrapping. -/
theorem claim_C2 (self : BinanceFutures) (S : StreamId) (subscription : Subscription)
    (msgs : List (Nat × BinanceMessage))
    (hreg : streams_get self.streams S = some (StreamMeta.new subscription))
    (hlen : msgs.length < 2 ^ 64) :
    (events_for S self msgs).map MarketEvent.sequence
      = List.range (events_for S self msgs).length
    ∧ streams_get (run_state self msgs).streams S
      = some ⟨(events_for S self msgs).length, subscription⟩ := by
  have h := events_for_sequences S msgs self (StreamMeta.new subscription) hreg
    (by simpa [StreamMeta.new] using hlen)
  refine ⟨?_, ?_⟩
  · rw [List.range_eq_range']
    simpa [StreamMeta.new] using h.1
  · simpa [StreamMeta.new] using h.2

theorem claim_C2_witness :
    streams_get binanceSample.streams "btcusdt@aggTrade" = some (StreamMeta.new subSample)
    ∧ msgsSample.length < 2 ^ 64
    ∧ ((events_for "btcusdt@aggTrade" binanceSample msgsSample).map MarketEvent.sequence
        = List.range (events_for "btcusdt@aggTrade" binanceSample msgsSample).length
      ∧ streams_get (run_state binanceSample msgsSample).streams "btcusdt@aggTrade"
        = some ⟨(events_for "btcusdt@aggTrade" binanceSample msgsSample).length, subSample⟩) :=
  ⟨rfl, by decide, claim_C2 binanceSample "btcusdt@aggTrade" subSample msgsSample rfl (by decide)⟩

/-- C3. For any transport contents, the items returned by successive pulls of the
exchange stream equal the already-buffered items followed by the concatenation of
each frame's outputs in frame-arrival order, and within one frame in production
order (`frame_outputs`): the buffer is FIFO and drained before a new frame is
consumed. `fuel` bounds the number of pulls made; `pollFuel` pulls suffice. -/
theorem claim_C3 (parse : StreamItem → Option (Except SocketError ExchangeMessage))
    (transform : T → ExchangeMessage → T × List (Except SocketError Output))
    (s : ExchangeSocket StreamItem Output T) (fuel : Nat)
    (hfuel : pollFuel parse transform s ≤ fuel) :
    pull_all parse transform fuel s
      = s.buffer ++ frame_outputs parse transform s.transformer s.socket :=
  pull_all_spec parse transform fuel s hfuel

theorem claim_C3_witness :
    pollFuel parseSample transformSample socketSample ≤ 10
    ∧ pull_all parseSample transformSample 10 socketSample
      = socketSample.buffer
        ++ frame_outputs parseSample transformSample
             socketSample.transformer socketSample.socket :=
  ⟨by decide, claim_C3 parseSample transformSample socketSample 10 (by decide)⟩

/-- C4 (amended). A close frame yields exactly one `Terminated` error item,
delivered as a regular stream item — but the stream does not mark itself
terminated: `ExchangeSocket` has no terminal state, and the next pull polls the
transport again. The pull interface yields "no more items" only once the
underlying transport is exhausted. -/
theorem claim_C4 (de : SerdeJson ExchangeMessage)
    (transform : T → ExchangeMessage → T × List (Except SocketError Output))
    (t : T) (close_frame : Option CloseFrame)
    (rest : List (TransportPoll (Except WsError WsMessage))) :
    poll_next (WebSocketProtocol.parse de) transform
        ⟨.Ready (.ok (.Close close_frame)) :: rest, t, []⟩
      = (⟨rest, t, []⟩,
         .Ready (some (.error (.Terminated (format_close_frame close_frame)))))
    ∧ poll_next (WebSocketProtocol.parse de) transform ⟨[], t, []⟩
      = (⟨[], t, []⟩, .Ready none) :=
  ⟨rfl, rfl⟩

/-- C4 counterexample: the claim says that after the `Terminated` error item the
pull interface yields no further items. On a transport that yields a close frame
and then a data frame, the first pull yields the `Terminated` error and the
second pull yields a further item — the stream did not mark itself terminated
and polled the transport again. -/
theorem claim_C4_counterexample :
    (poll_next parseSample transformSample
        ⟨[.Ready (.ok (.Close none)), .Ready (.ok (.Text "good"))], (), []⟩).2
      = .Ready (some (.error (.Terminated "None")))
    ∧ (poll_next parseSample transformSample
        ((poll_next parseSample transformSample
          ⟨[.Ready (.ok (.Close none)), .Ready (.ok (.Text "good"))], (), []⟩).1)).2
      = .Ready (some (.ok "goodmsg")) :=
  ⟨rfl, rfl⟩

/-- C5 (amended). The forwarding task spawned by `consume` logs and continues on
every error item — transport and `Terminated` errors included — and forwards the
events of every `Ok` item in order; the forwarding loop ends only when the
exchange stream is exhausted. -/
theorem claim_C5 (err : SocketError) (events : List MarketEvent)
    (rest : List (Except SocketError (List MarketEvent))) :
    consume_forward (.error err :: rest) = consume_forward rest
    ∧ consume_forward (.ok events :: rest) = events ++ consume_forward rest
    ∧ consume_forward [] = [] :=
  ⟨rfl, rfl, rfl⟩

/-- C5 counterexample: the claim says a transport/`Terminated` error item makes
the forwarding task terminate its loop. In the code (explore.rs lines 122-125)
every `Err` item is logged and the loop continues: an `Ok` item arriving after a
`Terminated` error is still forwarded. -/
theorem claim_C5_counterexample :
    consume_forward [.error (.Terminated "None"), .ok [eventSample]] = [eventSample] :=
  rfl

/-- C6 (amended). A text frame whose payload fails deserialisation parses to
`Some(Err(Serde))` carrying both the underlying error and the raw payload; a
binary frame that fails parses to `Some(Err(Serde))` carrying the underlying
error together with `String::from_utf8(payload).unwrap_or_else(|x| x.to_string())`,
which is the raw payload (UTF-8 decoded) exactly when the payload is valid
UTF-8 — for non-UTF-8 payloads the `FromUtf8Error` diagnostic replaces the raw
payload. The failure is never dropped, and the pipeline remains usable: a
subsequent valid frame still parses to its message, and the pipeline outputs
for a failing frame followed by a valid one are the `Serde` error item followed
by the transformer's outputs for the valid message. -/
theorem claim_C6 (de : SerdeJson ExchangeMessage) (payload payload2 : String)
    (bpayload bpayload2 : List Nat) (chars2 : List Char)
    (error berror berror2 : SerdeJsonError) (msg2 : ExchangeMessage)
    (transform : T → ExchangeMessage → T × List (Except SocketError Output)) (t : T)
    (hbad : de.from_str payload = .error error)
    (hgood : de.from_str payload2 = .ok msg2)
    (hbadbin : de.from_slice bpayload = .error berror)
    (hbadbin2 : de.from_slice bpayload2 = .error berror2)
    (hdec2 : run_utf8_validation 0 bpayload2 = .ok chars2) :
    WebSocketProtocol.parse de (.ok (.Text payload))
      = some (.error (.Serde error payload))
    ∧ WebSocketProtocol.parse de (.ok (.Text payload2)) = some (.ok msg2)
    ∧ WebSocketProtocol.parse de (.ok (.Binary bpayload))
      = some (.error (.Serde berror (string_from_utf8 bpayload)))
    ∧ WebSocketProtocol.parse de (.ok (.Binary bpayload2))
      = some (.error (.Serde berror2 ⟨chars2⟩))
    ∧ frame_outputs (WebSocketProtocol.parse de) transform t
        [.Ready (.ok (.Text payload)), .Ready (.ok (.Text payload2))]
      = .error (.Serde error payload) :: (transform t msg2).2 := by
  refine ⟨?_, ?_, ?_, ?_, ?_⟩
  · simp [WebSocketProtocol.parse, process_text, hbad]
  · simp [WebSocketProtocol.parse, process_text, hgood]
  · simp [WebSocketProtocol.parse, process_binary, hbadbin]
  · simp [WebSocketProtocol.parse, process_binary, hbadbin2, string_from_utf8, hdec2]
  · rcases htr : transform t msg2 with ⟨t', outs⟩
    simp [frame_outputs, WebSocketProtocol.parse, process_text, hbad, hgood, htr]

/-- C6 counterexample: the claim says every failing text or binary frame yields
a `Serde` error carrying the raw payload. On the binary path with a payload that
is not valid UTF-8 the code substitutes the `FromUtf8Error` display string: the
two distinct payloads `[0xFF]` and `[0xFF, 0xFF]` produce identical error items,
so the raw payload is not carried. -/
theorem claim_C6_counterexample :
    process_binary deSample [0xFF]
      = some (.error (.Serde "no binary" "invalid utf-8 sequence of 1 bytes from index 0"))
    ∧ process_binary deSample [0xFF, 0xFF]
      = some (.error (.Serde "no binary" "invalid utf-8 sequence of 1 bytes from index 0"))
    ∧ [0xFF] ≠ ([0xFF, 0xFF] : List Nat) :=
  ⟨rfl, rfl, by decide⟩

theorem claim_C6_witness :
    deSample.from_str "bad" = .error "parse fail"
    ∧ deSample.from_str "good" = .ok "goodmsg"
    ∧ deSample.from_slice [0xFF] = .error "no binary"
    ∧ deSample.from_slice [0x62, 0x61, 0x64] = .error "no binary"
    ∧ run_utf8_validation 0 [0x62, 0x61, 0x64] = .ok ['b', 'a', 'd']
    ∧ (WebSocketProtocol.parse deSample (.ok (.Text "bad"))
        = some (.error (.Serde "parse fail" "bad"))
      ∧ WebSocketProtocol.parse deSample (.ok (.Text "good")) = some (.ok "goodmsg")
      ∧ WebSocketProtocol.parse deSample (.ok (.Binary [0xFF]))
        = some (.error (.Serde "no binary" (string_from_utf8 [0xFF])))
      ∧ WebSocketProtocol.parse deSample (.ok (.Binary [0x62, 0x61, 0x64]))
        = some (.error (.Serde "no binary" ⟨['b', 'a', 'd']⟩))
      ∧ frame_outputs (WebSocketProtocol.parse deSample) transformSample ()
          [.Ready (.ok (.Text "bad")), .Ready (.ok (.Text "good"))]
        = .error (.Serde "parse fail" "bad") :: (transformSample () "goodmsg").2) :=
  ⟨rfl, rfl, rfl, rfl, rfl,
   claim_C6 deSample "bad" "good" [0xFF] [0x62, 0x61, 0x64] ['b', 'a', 'd']
     "parse fail" "no binary" "no binary" "goodmsg" transformSample () rfl rfl rfl rfl rfl⟩

/-- C7. For every subscription-confirmation message, `transform` returns a
`Subscribe`-kind error when the confirmation indicates failure (`result` is
`Some`), and an empty output set (zero events) when it indicates success —
confirmations are never surfaced as data events, and the transformer state is
unchanged either way. -/
theorem claim_C7 (self : BinanceFutures) (now : DateTime)
    (sub_confirm : BinanceSubscribed) :
    (sub_confirm.result.isSome = true →
      self.transform now (.Subscribed sub_confirm)
        = (self, .error (.SubscribeError "")))
    ∧ (sub_confirm.result.isSome = false →
      self.transform now (.Subscribed sub_confirm) = (self, .ok none)) := by
  constructor <;> intro h <;> simp [BinanceFutures.transform, h]

theorem claim_C7_witness :
    (⟨[]⟩ : BinanceFutures).transform 0 (.Subscribed ⟨some [], 1⟩)
      = (⟨[]⟩, .error (.SubscribeError ""))
    ∧ (⟨[]⟩ : BinanceFutures).transform 0 (.Subscribed ⟨none, 1⟩) = (⟨[]⟩, .ok none) :=
  ⟨(claim_C7 ⟨[]⟩ 0 ⟨some [], 1⟩).1 rfl, (claim_C7 ⟨[]⟩ 0 ⟨none, 1⟩).2 rfl⟩

/-- C8. A data message whose derived `StreamId` is not registered in the
transformer's map makes `transform` return exactly one `Unidentifiable` error
carrying the unresolved identifier string, with the transformer state unchanged
— so the pipeline neither crashes nor stalls, and the next inbound frame is
processed against the same state. -/
theorem claim_C8 (self : BinanceFutures) (now : DateTime) (trade : BinanceTrade)
    (hmiss : streams_get self.streams trade.to_stream_id = none) :
    self.transform now (.Trade trade)
      = (self, .error (.Unidentifiable trade.to_stream_id)) := by
  simp [BinanceFutures.transform, BinanceFutures.get_stream_meta, hmiss]

theorem claim_C8_witness :
    streams_get (⟨[]⟩ : BinanceFutures).streams tradeSample.to_stream_id = none
    ∧ (⟨[]⟩ : BinanceFutures).transform 0 (.Trade tradeSample)
      = (⟨[]⟩, .error (.Unidentifiable tradeSample.to_stream_id)) :=
  ⟨rfl, claim_C8 ⟨[]⟩ 0 tradeSample rfl⟩

/-- C9. Whenever `transform` returns an error — a `Subscribe` error for a failed
confirmation or an `Unidentifiable` error for an unmatched data message — the
`StreamId → StreamMeta` map is left unchanged: no counter is incremented, no
entry added or removed. -/
theorem claim_C9 (self : BinanceFutures) (now : DateTime) (input : BinanceMessage)
    (self' : BinanceFutures) (err : SocketError)
    (herr : self.transform now input = (self', .error err)) :
    self' = self := by
  cases input with
  | Subscribed sub_confirm =>
    cases hres : sub_confirm.result with
    | some v =>
      simp only [BinanceFutures.transform, hres, Option.isSome_some, if_true,
        Prod.mk.injEq] at herr
      exact herr.1.symm
    | none =>
      simp [BinanceFutures.transform, hres] at herr
  | Trade trade =>
    cases hget : streams_get self.streams trade.to_stream_id with
    | none =>
      simp only [BinanceFutures.transform, BinanceFutures.get_stream_meta, hget,
        Prod.mk.injEq] at herr
      exact herr.1.symm
    | some w =>
      simp [BinanceFutures.transform, BinanceFutures.get_stream_meta, hget] at herr

theorem claim_C9_witness :
    (⟨[]⟩ : BinanceFutures).transform 0 (.Trade tradeSample)
      = (⟨[]⟩, .error (.Unidentifiable tradeSample.to_stream_id))
    ∧ (⟨[]⟩ : BinanceFutures) = ⟨[]⟩ :=
  ⟨rfl,
   claim_C9 ⟨[]⟩ 0 (.Trade tradeSample) ⟨[]⟩
     (.Unidentifiable tradeSample.to_stream_id) rfl⟩

/-- C10. `StreamBuilder::build` on an empty configuration map returns the
`SubscribeError("no provided streams to subscribe to")` immediately: `consume`
(which connects the transport, sends the subscriptions and spawns the
forwarding task) is invoked for no exchange. -/
theorem claim_C10 {Rx : Type} (consume : List Subscription → Except SocketError Rx)
    (builder : StreamBuilder) (hempty : builder.config = []) :
    builder.build consume
      = (.error (.SubscribeError "no provided streams to subscribe to"), []) := by
  simp [StreamBuilder.build, hempty]

theorem claim_C10_witness :
    StreamBuilder.new.config = ([] : List (Exchange × List StreamConfig))
    ∧ StreamBuilder.new.build
        (fun _ => (.ok () : Except SocketError Unit))
      = (.error (.SubscribeError "no provided streams to subscribe to"),
         ([] : List Exchange)) :=
  ⟨rfl, claim_C10 (fun _ => .ok ()) StreamBuilder.new rfl⟩

end Barter
